import Mathlib

/-!
# Verification of the `calculation_module` core

A shallow embedding of `app/calculator.py`, `app/validators.py` and
`app/models.py`. Python floats are modelled as exact rationals (`ℚ`);
`math.sqrt` (used only by `calculate_standard_deviation`) is modelled by the
symbolic value constructor `MVal.sqrtq`, interpreted into `ℝ` by
`MVal.interp`. Python exceptions (`raise ValueError`) are modelled by
`Except String`; the orchestrator's `try/except` blocks become `match`es on
those `Except` values. Python `dict`s are modelled as insertion-ordered
association lists (keys in this program never repeat), with lookup
`dict_get`. The `timestamp` field of `CalculationResult` (a wall-clock
side effect) is not modelled.
-/

/-- `app/models.py` `Indicator`. The weight is `Optional[float]` in the
source; `__post_init__` normalises `None` to `1.0`, and every consumer of
the field also re-applies the `1.0` default (`weight if weight is not None
else 1.0`), which we keep as `Option.getD 1`. -/
structure Indicator where
  id : String
  value : ℚ
  weight : Option ℚ := some 1
  unit : String := ""
deriving DecidableEq, Repr

/-- `app/models.py` `CalculationInput`: indicators plus named coefficients
(a `Dict[str, float]`, embedded as an association list). -/
structure CalculationInput where
  indicators : List Indicator
  coefficients : List (String × ℚ) := []
deriving DecidableEq, Repr

/-- A value stored in the result's `data` mapping: either an exact rational
or `sqrtq x`, the symbolic image of Python's `math.sqrt(x)`. -/
inductive MVal where
  | q (x : ℚ)
  | sqrtq (x : ℚ)
deriving DecidableEq, Repr

/-- Real-number meaning of a stored metric value. -/
noncomputable def MVal.interp : MVal → ℝ
  | .q x => (x : ℝ)
  | .sqrtq x => Real.sqrt (x : ℝ)

/-- `app/models.py` `CalculationResult` (without the unmodelled wall-clock
`timestamp`). -/
structure CalculationResult where
  success : Bool
  data : List (String × MVal)
  errors : List String
  warnings : List String
deriving DecidableEq, Repr

/-- Python `dict` lookup on an insertion-ordered association list. -/
def dict_get {β : Type} (k : String) : List (String × β) → Option β
  | [] => none
  | (a, v) :: rest => if a = k then some v else dict_get k rest

/-! ## Metric functions (`app/calculator.py`, class `MetricsCalculator`) -/

/-- `calculate_arithmetic_mean`: `sum(values) / len(values)` after the
non-emptiness guard. -/
def calculate_arithmetic_mean (indicators : List Indicator) : Except String ℚ :=
  if indicators = [] then .error "Нет данных для расчёта среднего"
  else
    let values := indicators.map (·.value)
    .ok (values.sum / values.length)

/-- `calculate_weighted_mean`: the source's accumulation loop computes
`Σ value·(weight or 1)` and `Σ (weight or 1)`, then guards a zero total
weight before dividing. -/
def calculate_weighted_mean (indicators : List Indicator) : Except String ℚ :=
  if indicators = [] then .error "Нет данных для расчёта взвешенного среднего"
  else
    let weighted_sum := (indicators.map (fun i => i.value * i.weight.getD 1)).sum
    let total_weight := (indicators.map (fun i => i.weight.getD 1)).sum
    if total_weight = 0 then .error "Сумма весов равна нулю"
    else .ok (weighted_sum / total_weight)

/-- `calculate_growth_rate`: `((current - previous) / previous) * 100` with
a zero-previous guard. -/
def calculate_growth_rate (current previous : ℚ) : Except String ℚ :=
  if previous = 0 then .error "Предыдущее значение не может быть 0"
  else .ok ((current - previous) / previous * 100)

/-- `calculate_efficiency_ratio`: `output / input` with a zero-input guard. -/
def calculate_efficiency_ratio (output input_val : ℚ) : Except String ℚ :=
  if input_val = 0 then .error "Входное значение не может быть 0"
  else .ok (output / input_val)

/-- The variance expression shared verbatim by `calculate_standard_deviation`
and `calculate_variance` in the source:
`sum((x - mean) ** 2 for x in values) / len(values)` with
`mean = sum(values) / len(values)`. -/
def varianceOf (values : List ℚ) : ℚ :=
  let mean := values.sum / values.length
  (values.map (fun x => (x - mean) ^ 2)).sum / values.length

/-- `calculate_standard_deviation`: guards `len < 2`, then returns
`math.sqrt(variance)`, embedded as the symbolic `MVal.sqrtq`. -/
def calculate_standard_deviation (indicators : List Indicator) : Except String MVal :=
  if indicators.length < 2 then .error "Требуется минимум 2 значения для расчёта отклонения"
  else .ok (.sqrtq (varianceOf (indicators.map (·.value))))

/-- `calculate_median`: sorted values; middle element when the count is odd,
average of the two middles when even. -/
def calculate_median (indicators : List Indicator) : Except String ℚ :=
  if indicators = [] then .error "Нет данных для расчёта медианы"
  else
    let values := (indicators.map (·.value)).mergeSort (· ≤ ·)
    let n := values.length
    .ok (if n % 2 = 1 then values.getD (n / 2) 0
         else (values.getD (n / 2 - 1) 0 + values.getD (n / 2) 0) / 2)

/-- `calculate_variance`: guards `len < 2`, then the population variance. -/
def calculate_variance (indicators : List Indicator) : Except String ℚ :=
  if indicators.length < 2 then .error "Требуется минимум 2 значения для расчёта дисперсии"
  else .ok (varianceOf (indicators.map (·.value)))

/-- The `{'min': …, 'max': …, 'range': …}` dict returned by
`calculate_range`. -/
structure RangeVals where
  min : ℚ
  max : ℚ
  range : ℚ
deriving DecidableEq, Repr

/-- `calculate_range`: min, max and max − min of the values. -/
def calculate_range (indicators : List Indicator) : Except String RangeVals :=
  if indicators = [] then .error "Нет данных для расчёта размаха"
  else
    let values := indicators.map (·.value)
    .ok { min := (values.min?).getD 0
          max := (values.max?).getD 0
          range := (values.max?).getD 0 - (values.min?).getD 0 }

/-! ## Validator (`app/validators.py`) -/

/-- `validate_indicator`. The source's `isinstance` checks on `id` being a
string and `value` being numeric are vacuous in the typed embedding (the
fields always hold those types); the representable checks are an empty
identifier and a present negative weight. -/
def validate_indicator (indicator : Indicator) : List String :=
  (if indicator.id = "" then ["Некорректный идентификатор: " ++ indicator.id] else []) ++
  (match indicator.weight with
   | some w => if w < 0 then ["Вес " ++ indicator.id ++ " не может быть отрицательным"] else []
   | none => [])

/-- `validate_input_data`: empty sequence fails immediately; otherwise all
per-indicator violations are accumulated, a duplicate-identifier violation
is appended when ids repeat, and the source's per-coefficient `isinstance`
check is vacuous in the typed embedding. A non-empty accumulated list is
raised as one newline-joined `ValidationError`. -/
def validate_input_data (data : CalculationInput) : Except String Unit :=
  if data.indicators = [] then .error "Список показателей пуст"
  else
    let all_errors := (data.indicators.map validate_indicator).flatten ++
      (if (data.indicators.map (·.id)).Nodup then []
       else ["Идентификаторы показателей должны быть уникальными"])
    if all_errors = [] then .ok () else .error (String.intercalate "\n" all_errors)

/-! ## Orchestrator (`calculate_all_metrics`) -/

/-- One `try: results[key] = f(...)` / `except ValueError` data entry. -/
def metricEntry (key : String) : Except String ℚ → List (String × MVal)
  | .ok v => [(key, .q v)]
  | .error _ => []

/-- One `except ValueError as e: list.append(f"label: {e}")` message. -/
def metricIssue {α : Type} (label : String) : Except String α → List String
  | .ok _ => []
  | .error m => [label ++ ": " ++ m]

/-- The `std_dev` entry of the results dict (value is a symbolic sqrt). -/
def stdEntry : Except String MVal → List (String × MVal)
  | .ok v => [("std_dev", v)]
  | .error _ => []

/-- The `results.update({'min_value': …, 'max_value': …, 'value_range': …})`
block. -/
def rangeEntry : Except String RangeVals → List (String × MVal)
  | .ok rv => [("min_value", .q rv.min), ("max_value", .q rv.max), ("value_range", .q rv.range)]
  | .error _ => []

/-- The growth-rate block: runs only when `previous_period_value` is a key of
the coefficients and the arithmetic mean was computed; a `ValueError` is
routed to the error list. Returns (data entries, error messages). -/
def growthPart (coefficients : List (String × ℚ)) (meanR : Except String ℚ) :
    List (String × MVal) × List String :=
  match dict_get "previous_period_value" coefficients, meanR with
  | some previous, .ok current_mean =>
    match calculate_growth_rate current_mean previous with
    | .ok g => ([("growth_rate", .q g)], [])
    | .error m => ([], ["Темп роста: " ++ m])
  | _, _ => ([], [])

/-- The efficiency-ratio block: runs only when both `output_value` and
`input_value` are coefficient keys; a `ValueError` is routed to the error
list. Returns (data entries, error messages). -/
def effPart (coefficients : List (String × ℚ)) :
    List (String × MVal) × List String :=
  match dict_get "output_value" coefficients, dict_get "input_value" coefficients with
  | some output, some input_val =>
    match calculate_efficiency_ratio output input_val with
    | .ok r => ([("efficiency_ratio", .q r)], [])
    | .error m => ([], ["Коэффициент эффективности: " ++ m])
  | _, _ => ([], [])

/-- The final aggregate block: `sum` and `count` when the sequence is
non-empty, plus `avg_contribution = 100.0 / len(values)` when the sum is
non-zero. -/
def aggPart (indicators : List Indicator) : List (String × MVal) :=
  if indicators = [] then []
  else
    let values := indicators.map (·.value)
    [("sum", .q values.sum), ("count", .q values.length)] ++
    (if values.sum ≠ 0 then [("avg_contribution", .q (100 / values.length))] else [])

/-- `calculate_all_metrics`: validation first (a `ValidationError` is caught
and reported as the single aggregated entry); then every metric runs
independently, mean/weighted-mean failures going to `errors` and
std-dev/median/variance/range failures to `warnings`; then the
coefficient-driven metrics; then the aggregates; `success` is emptiness of
the error list. The source's final `except Exception` arm has no
counterpart here: every embedded operation is total, so no other failure
can occur. -/
def calculate_all_metrics (input_data : CalculationInput) : CalculationResult :=
  match validate_input_data input_data with
  | .error e =>
    { success := false, data := [], errors := ["Ошибка валидации: " ++ e], warnings := [] }
  | .ok _ =>
    let inds := input_data.indicators
    let meanR := calculate_arithmetic_mean inds
    let wmeanR := calculate_weighted_mean inds
    let stdR := calculate_standard_deviation inds
    let medR := calculate_median inds
    let varR := calculate_variance inds
    let rangeR := calculate_range inds
    let growth := growthPart input_data.coefficients meanR
    let eff := effPart input_data.coefficients
    let errors := metricIssue "Среднее арифметическое" meanR ++
                  metricIssue "Средневзвешенное" wmeanR ++ growth.2 ++ eff.2
    let warnings := metricIssue "Стандартное отклонение" stdR ++
                    metricIssue "Медиана" medR ++
                    metricIssue "Дисперсия" varR ++
                    metricIssue "Размах" rangeR
    let data := metricEntry "mean" meanR ++ metricEntry "weighted_mean" wmeanR ++
                stdEntry stdR ++ metricEntry "median" medR ++
                metricEntry "variance" varR ++ rangeEntry rangeR ++
                growth.1 ++ eff.1 ++ aggPart inds
    { success := errors.isEmpty, data := data, errors := errors, warnings := warnings }

/-! ## General lemmas -/

/-- In every branch of the orchestrator, the `success` flag is computed as
emptiness of the error list (the validation and system branches return
`success := false` together with a singleton error list). -/
lemma calcAll_success_eq (input : CalculationInput) :
    (calculate_all_metrics input).success = (calculate_all_metrics input).errors.isEmpty := by
  unfold calculate_all_metrics
  cases validate_input_data input <;> simp

/-- A passing validation forces a non-empty indicator list. -/
lemma validate_ok_nonempty {input : CalculationInput}
    (hv : validate_input_data input = .ok ()) : input.indicators ≠ [] := by
  intro h
  rw [validate_input_data] at hv
  simp [h] at hv

/-! ## Claims -/

/-- C1: for every call to `calculate_all_metrics`, the returned
`CalculationResult` has `success = true` iff its error list is empty; the
warnings list never enters the computation of the flag. -/
theorem success_iff_no_errors (input : CalculationInput) :
    (calculate_all_metrics input).success = true ↔
      (calculate_all_metrics input).errors = [] := by
  rw [calcAll_success_eq]
  exact List.isEmpty_iff

/-- C2: the orchestrator is a total function into `CalculationResult` (the
embedding can raise nothing), and every failure path yields `success =
false` together with a populated error list — and conversely a populated
error list forces `success = false`. The source's last-resort
`except Exception` arm has no reachable counterpart: all embedded
operations are total. -/
theorem calcAll_never_raises_contract (input : CalculationInput) :
    ((calculate_all_metrics input).success = false →
      (calculate_all_metrics input).errors ≠ []) ∧
    ((calculate_all_metrics input).errors ≠ [] →
      (calculate_all_metrics input).success = false) := by
  have h := calcAll_success_eq input
  constructor
  · intro hs he
    rw [he] at h
    rw [hs] at h
    simp at h
  · intro he
    rw [h]
    simpa using he

/-- Witness for C2 at a concrete failing input (empty indicator list). -/
theorem calcAll_never_raises_contract_witness :
    (calculate_all_metrics ⟨[], []⟩).errors ≠ [] :=
  (calcAll_never_raises_contract ⟨[], []⟩).1 rfl

/-- C3: an empty indicator sequence short-circuits in validation: the result
is exactly `success = false`, empty data, the single concatenated
validation message, and no warnings — no metric function contributes. -/
theorem calcAll_empty_indicators (input : CalculationInput)
    (h : input.indicators = []) :
    calculate_all_metrics input =
      ⟨false, [], ["Ошибка валидации: Список показателей пуст"], []⟩ := by
  unfold calculate_all_metrics validate_input_data
  simp [h]

/-- Witness for C3 at the concrete empty input. -/
theorem calcAll_empty_indicators_witness :
    calculate_all_metrics ⟨[], []⟩ =
      ⟨false, [], ["Ошибка валидации: Список показателей пуст"], []⟩ :=
  calcAll_empty_indicators ⟨[], []⟩ rfl

/-- C8: `calculate_growth_rate` returns `((current − previous)/previous)·100`
whenever `previous ≠ 0`, fails exactly when `previous = 0`, and in
particular maps `(150, 100)` to `50`. -/
theorem growth_rate_spec (current previous : ℚ) :
    (previous ≠ 0 →
      calculate_growth_rate current previous =
        .ok ((current - previous) / previous * 100)) ∧
    (previous = 0 →
      calculate_growth_rate current previous =
        .error "Предыдущее значение не может быть 0") ∧
    calculate_growth_rate 150 100 = .ok 50 := by
  refine ⟨fun h => by simp [calculate_growth_rate, h],
          fun h => by simp [calculate_growth_rate, h], ?_⟩
  norm_num [calculate_growth_rate]

/-- Witness for C8: both branches exercised at concrete scalars. -/
theorem growth_rate_spec_witness :
    calculate_growth_rate 150 100 = .ok ((150 - 100) / 100 * 100) ∧
    calculate_growth_rate 7 0 = .error "Предыдущее значение не может быть 0" :=
  ⟨(growth_rate_spec 150 100).1 (by norm_num), (growth_rate_spec 7 0).2.1 rfl⟩

/-- C10: a concrete input whose indicators all carry weight 0 passes
validation (only negative weights are rejected), yet `calculate_all_metrics`
reports the weighted mean's zero-total-weight failure as an error (so
`success = false`) while the arithmetic mean is still present in the data:
the zero-weight failure branch is reachable behind validation. -/
theorem zero_weights_pass_validation_weighted_mean_fails :
    validate_input_data ⟨[⟨"a", 10, some 0, ""⟩, ⟨"b", 30, some 0, ""⟩], []⟩ = .ok () ∧
    (calculate_all_metrics ⟨[⟨"a", 10, some 0, ""⟩, ⟨"b", 30, some 0, ""⟩], []⟩).success = false ∧
    (calculate_all_metrics ⟨[⟨"a", 10, some 0, ""⟩, ⟨"b", 30, some 0, ""⟩], []⟩).errors
      = ["Средневзвешенное: Сумма весов равна нулю"] ∧
    dict_get "mean" (calculate_all_metrics ⟨[⟨"a", 10, some 0, ""⟩, ⟨"b", 30, some 0, ""⟩], []⟩).data
      = some (.q 20) := by
  refine ⟨by simp +decide [validate_input_data, validate_indicator], ?_, ?_, ?_⟩ <;>
    norm_num +decide [calculate_all_metrics, validate_input_data, validate_indicator,
      calculate_arithmetic_mean, calculate_weighted_mean, metricIssue, metricEntry,
      growthPart, effPart, dict_get]

/-- Counterexample to C5 as stated: a single indicator of weight 0 has all
weights equal, yet the weighted mean fails (zero total weight) while the
arithmetic mean succeeds, so the two calls do not return the same value. -/
theorem equal_weights_mean_cex :
    calculate_weighted_mean [⟨"z", 3, some 0, ""⟩] ≠
      calculate_arithmetic_mean [⟨"z", 3, some 0, ""⟩] := by
  simp [calculate_weighted_mean, calculate_arithmetic_mean]

/-- C5 (amended): for every non-empty sequence of indicators whose effective
weights (`weight`, defaulting to 1 when absent) all equal one common
**non-zero** value, the weighted mean agrees with the arithmetic mean. -/
theorem weighted_mean_eq_mean_of_equal_weights (l : List Indicator) (w : ℚ)
    (hne : l ≠ []) (hw : w ≠ 0) (hall : ∀ i ∈ l, i.weight.getD 1 = w) :
    calculate_weighted_mean l = calculate_arithmetic_mean l := by
  have hmapv : l.map (fun i => i.value * i.weight.getD 1) =
      l.map (fun i => i.value * w) :=
    List.map_congr_left fun i hi => by rw [hall i hi]
  have hws : (l.map (fun i => i.value * i.weight.getD 1)).sum =
      (l.map (·.value)).sum * w := by
    rw [hmapv]
    exact List.sum_map_mul_right l (·.value) w
  have hts : (l.map (fun i => i.weight.getD 1)).sum = (l.length : ℚ) * w := by
    rw [List.map_congr_left hall]
    simp [List.map_const', mul_comm]
  have hlen : (l.length : ℚ) ≠ 0 :=
    Nat.cast_ne_zero.mpr fun h => hne (List.length_eq_zero.mp h)
  unfold calculate_weighted_mean calculate_arithmetic_mean
  rw [if_neg hne, if_neg hne]
  simp only [hws, hts]
  rw [if_neg (mul_ne_zero hlen hw)]
  congr 1
  rw [List.length_map]
  exact mul_div_mul_right _ _ hw

/-- Witness for C5 (amended) at a concrete two-indicator list of common
weight 2. -/
theorem weighted_mean_eq_mean_of_equal_weights_witness :
    calculate_weighted_mean [⟨"a", 1, some 2, ""⟩, ⟨"b", 3, some 2, ""⟩] =
      calculate_arithmetic_mean [⟨"a", 1, some 2, ""⟩, ⟨"b", 3, some 2, ""⟩] :=
  weighted_mean_eq_mean_of_equal_weights _ 2 (by simp) (by norm_num)
    (by intro i hi; fin_cases hi <;> rfl)

/-- The population variance expression is non-negative. -/
lemma varianceOf_nonneg (values : List ℚ) : 0 ≤ varianceOf values := by
  unfold varianceOf
  apply div_nonneg
  · apply List.sum_nonneg
    intro x hx
    simp only [List.mem_map] at hx
    obtain ⟨y, _, rfl⟩ := hx
    positivity
  · positivity

/-- C7: for ≥ 2 indicators `calculate_variance` returns the population
variance `Σ(x − mean)²/n` (divisor `n`), and `calculate_standard_deviation`
returns its square root (characterised over `ℝ`: a non-negative value whose
square is the variance); for < 2 indicators both fail. -/
theorem variance_std_dev_spec (inds : List Indicator) :
    (2 ≤ inds.length →
      calculate_variance inds =
        .ok (((inds.map (·.value)).map
              (fun x => (x - (inds.map (·.value)).sum / ((inds.map (·.value)).length : ℚ)) ^ 2)).sum /
            ((inds.map (·.value)).length : ℚ)) ∧
      ∃ s, calculate_standard_deviation inds = .ok s ∧ 0 ≤ s.interp ∧
        s.interp ^ 2 = ((varianceOf (inds.map (·.value)) : ℚ) : ℝ)) ∧
    (inds.length < 2 →
      calculate_variance inds = .error "Требуется минимум 2 значения для расчёта дисперсии" ∧
      calculate_standard_deviation inds =
        .error "Требуется минимум 2 значения для расчёта отклонения") := by
  constructor
  · intro h
    have hnot : ¬ inds.length < 2 := not_lt.mpr h
    refine ⟨by simp [calculate_variance, hnot, varianceOf], ?_⟩
    refine ⟨.sqrtq (varianceOf (inds.map (·.value))), by simp [calculate_standard_deviation, hnot], ?_, ?_⟩
    · exact Real.sqrt_nonneg _
    · exact Real.sq_sqrt (by exact_mod_cast varianceOf_nonneg _)
  · intro h
    exact ⟨by simp [calculate_variance, h], by simp [calculate_standard_deviation, h]⟩

/-- Witness for C7 at a concrete two-indicator list (the ≥ 2 branch). -/
theorem variance_std_dev_spec_witness :
    calculate_variance [⟨"a", 10, some 1, ""⟩, ⟨"b", 20, some 1, ""⟩] =
      .ok (((([⟨"a", 10, some 1, ""⟩, ⟨"b", 20, some 1, ""⟩] : List Indicator).map (·.value)).map
            (fun x => (x - (([⟨"a", 10, some 1, ""⟩, ⟨"b", 20, some 1, ""⟩] : List Indicator).map (·.value)).sum /
              ((([⟨"a", 10, some 1, ""⟩, ⟨"b", 20, some 1, ""⟩] : List Indicator).map (·.value)).length : ℚ)) ^ 2)).sum /
          ((([⟨"a", 10, some 1, ""⟩, ⟨"b", 20, some 1, ""⟩] : List Indicator).map (·.value)).length : ℚ)) ∧
    ∃ s, calculate_standard_deviation [⟨"a", 10, some 1, ""⟩, ⟨"b", 20, some 1, ""⟩] = .ok s ∧
      0 ≤ s.interp ∧
      s.interp ^ 2 =
        ((varianceOf (([⟨"a", 10, some 1, ""⟩, ⟨"b", 20, some 1, ""⟩] : List Indicator).map (·.value)) : ℚ) : ℝ) :=
  (variance_std_dev_spec [⟨"a", 10, some 1, ""⟩, ⟨"b", 20, some 1, ""⟩]).1 (by simp)

deriving instance DecidableEq for Except

/-- C9: on a non-empty indicator sequence, validation either passes (when no
violation was collected) or fails with a single message that is the
newline-join of every collected violation — the per-indicator violations in
order, then the duplicate-identifier violation. (The `isinstance` checks of
the source on identifiers, values and coefficients are unrepresentable in
the typed embedding and hence vacuously satisfied.) -/
theorem validator_accumulates_all (input : CalculationInput)
    (hne : input.indicators ≠ []) :
    ((input.indicators.map validate_indicator).flatten ++
        (if (input.indicators.map (·.id)).Nodup then []
         else ["Идентификаторы показателей должны быть уникальными"]) = [] →
      validate_input_data input = .ok ()) ∧
    ((input.indicators.map validate_indicator).flatten ++
        (if (input.indicators.map (·.id)).Nodup then []
         else ["Идентификаторы показателей должны быть уникальными"]) ≠ [] →
      validate_input_data input =
        .error (String.intercalate "\n"
          ((input.indicators.map validate_indicator).flatten ++
            (if (input.indicators.map (·.id)).Nodup then []
             else ["Идентификаторы показателей должны быть уникальными"])))) := by
  unfold validate_input_data
  rw [if_neg hne]
  constructor
  · intro h
    simp [h]
  · intro h
    simp only []
    rw [if_neg h]

/-- Witness for C9: an input with an empty identifier, a negative weight and
a duplicated identifier produces the three violations newline-joined into
one validation error. -/
theorem validator_accumulates_all_witness :
    validate_input_data
        ⟨[⟨"", 1, some (-1), ""⟩, ⟨"a", 2, none, ""⟩, ⟨"a", 3, none, ""⟩], []⟩ =
      .error "Некорректный идентификатор: \nВес  не может быть отрицательным\nИдентификаторы показателей должны быть уникальными" := by
  have h := (validator_accumulates_all
    ⟨[⟨"", 1, some (-1), ""⟩, ⟨"a", 2, none, ""⟩, ⟨"a", 3, none, ""⟩], []⟩
    (by simp)).2 (by decide)
  revert h
  decide

/-- Counterexample to C4 as stated: a single indicator of weight 0 is valid
(validation only rejects negative weights) and carries no coefficient keys,
yet the weighted mean fails with an error, so `success = false` and the
weighted mean is absent from the data. -/
theorem single_indicator_success_cex :
    validate_input_data ⟨[⟨"x", 7, some 0, ""⟩], []⟩ = .ok () ∧
    (calculate_all_metrics ⟨[⟨"x", 7, some 0, ""⟩], []⟩).success = false ∧
    dict_get "weighted_mean" (calculate_all_metrics ⟨[⟨"x", 7, some 0, ""⟩], []⟩).data = none ∧
    (calculate_all_metrics ⟨[⟨"x", 7, some 0, ""⟩], []⟩).errors ≠ [] := by
  refine ⟨by simp +decide [validate_input_data, validate_indicator], ?_, ?_, ?_⟩ <;>
    norm_num +decide [calculate_all_metrics, validate_input_data, validate_indicator,
      calculate_arithmetic_mean, calculate_weighted_mean, calculate_standard_deviation,
      calculate_median, calculate_variance, calculate_range, varianceOf,
      metricEntry, metricIssue, stdEntry, rangeEntry, growthPart, effPart, aggPart, dict_get]

/-- A single valid indicator with non-zero effective weight passes
validation. -/
lemma validate_singleton_ok (i : Indicator) (hid : i.id ≠ "")
    (hwnn : ∀ w ∈ i.weight, 0 ≤ w) :
    validate_input_data ⟨[i], []⟩ = .ok () := by
  unfold validate_input_data
  rcases hw : i.weight with _ | w
  · simp [validate_indicator, hid, hw]
  · have : ¬ w < 0 := not_lt.mpr (hwnn w (by rw [hw]; rfl))
    simp [validate_indicator, hid, hw, this]

/-- The arithmetic mean of one indicator is its value. -/
lemma mean_singleton (i : Indicator) :
    calculate_arithmetic_mean [i] = .ok i.value := by
  simp [calculate_arithmetic_mean]

/-- The weighted mean of one indicator with non-zero effective weight is its
value. -/
lemma weighted_mean_singleton (i : Indicator) (hw : i.weight.getD 1 ≠ 0) :
    calculate_weighted_mean [i] = .ok i.value := by
  simp only [calculate_weighted_mean, List.map_cons, List.map_nil, List.sum_cons,
    List.sum_nil, add_zero]
  rw [if_neg (by simp), if_neg hw]
  rw [mul_div_cancel_right₀ _ hw]

/-- The median of one indicator is its value. -/
lemma median_singleton (i : Indicator) :
    calculate_median [i] = .ok i.value := by
  simp [calculate_median]

/-- The range of one indicator is degenerate. -/
lemma range_singleton (i : Indicator) :
    calculate_range [i] = .ok ⟨i.value, i.value, i.value - i.value⟩ := by
  simp [calculate_range, List.min?, List.max?]

/-- C4 (amended): for every `CalculationInput` with exactly one valid
indicator whose effective weight is non-zero (positive, or absent and thus
defaulted to 1) and no coefficient keys, `calculate_all_metrics` puts the
arithmetic mean and the weighted mean (both equal to the value) into the
data, records exactly the standard-deviation and variance failures as
warnings, leaves the error list empty, and reports `success = true`. -/
theorem single_indicator_partial_failure (i : Indicator) (hid : i.id ≠ "")
    (hwnn : ∀ w ∈ i.weight, 0 ≤ w) (hw : i.weight.getD 1 ≠ 0) :
    dict_get "mean" (calculate_all_metrics ⟨[i], []⟩).data = some (.q i.value) ∧
    dict_get "weighted_mean" (calculate_all_metrics ⟨[i], []⟩).data = some (.q i.value) ∧
    (calculate_all_metrics ⟨[i], []⟩).warnings =
      ["Стандартное отклонение: Требуется минимум 2 значения для расчёта отклонения",
       "Дисперсия: Требуется минимум 2 значения для расчёта дисперсии"] ∧
    (calculate_all_metrics ⟨[i], []⟩).errors = [] ∧
    (calculate_all_metrics ⟨[i], []⟩).success = true := by
  have hval := validate_singleton_ok i hid hwnn
  have hstd : calculate_standard_deviation [i] =
      .error "Требуется минимум 2 значения для расчёта отклонения" := by
    simp [calculate_standard_deviation]
  have hvar : calculate_variance [i] =
      .error "Требуется минимум 2 значения для расчёта дисперсии" := by
    simp [calculate_variance]
  unfold calculate_all_metrics
  rw [hval]
  simp only [mean_singleton, weighted_mean_singleton i hw, hstd,
    median_singleton, hvar, range_singleton]
  simp +decide [metricEntry, metricIssue, stdEntry, rangeEntry,
    growthPart, effPart, aggPart, dict_get]

/-- Witness for C4 (amended) at a concrete single indicator with the default
(absent) weight. -/
theorem single_indicator_partial_failure_witness :
    dict_get "mean" (calculate_all_metrics ⟨[⟨"a", 5, none, ""⟩], []⟩).data = some (.q 5) ∧
    dict_get "weighted_mean" (calculate_all_metrics ⟨[⟨"a", 5, none, ""⟩], []⟩).data = some (.q 5) ∧
    (calculate_all_metrics ⟨[⟨"a", 5, none, ""⟩], []⟩).warnings =
      ["Стандартное отклонение: Требуется минимум 2 значения для расчёта отклонения",
       "Дисперсия: Требуется минимум 2 значения для расчёта дисперсии"] ∧
    (calculate_all_metrics ⟨[⟨"a", 5, none, ""⟩], []⟩).errors = [] ∧
    (calculate_all_metrics ⟨[⟨"a", 5, none, ""⟩], []⟩).success = true :=
  single_indicator_partial_failure ⟨"a", 5, none, ""⟩ (by decide) (by simp) (by decide)

/-- Lookup skips a prefix none of whose keys match. -/
lemma dict_get_append {β : Type} (k : String) (l1 l2 : List (String × β))
    (h : ∀ p ∈ l1, p.1 ≠ k) : dict_get k (l1 ++ l2) = dict_get k l2 := by
  induction l1 with
  | nil => rfl
  | cons a t ih =>
    obtain ⟨a1, a2⟩ := a
    show (if a1 = k then some a2 else dict_get k (t ++ l2)) = dict_get k l2
    rw [if_neg (h ⟨a1, a2⟩ (by simp)), ih (fun p hp => h p (by simp [hp]))]

/-- Every key a `metricEntry` block contributes is its own key. -/
lemma metricEntry_key (key : String) (r : Except String ℚ) :
    ∀ p ∈ metricEntry key r, p.1 = key := by
  intro p hp
  cases r with
  | error m => simp [metricEntry] at hp
  | ok v => simp [metricEntry] at hp; rw [hp]

/-- The `std_dev` block only contributes the key `std_dev`. -/
lemma stdEntry_key (r : Except String MVal) :
    ∀ p ∈ stdEntry r, p.1 = "std_dev" := by
  intro p hp
  cases r with
  | error m => simp [stdEntry] at hp
  | ok v => simp [stdEntry] at hp; rw [hp]

/-- The range block only contributes its three fixed keys. -/
lemma rangeEntry_key (r : Except String RangeVals) :
    ∀ p ∈ rangeEntry r, p.1 = "min_value" ∨ p.1 = "max_value" ∨ p.1 = "value_range" := by
  intro p hp
  cases r with
  | error m => simp [rangeEntry] at hp
  | ok rv =>
    simp [rangeEntry] at hp
    rcases hp with h | h | h <;> simp [h]

/-- The growth-rate block only contributes the key `growth_rate`. -/
lemma growthPart_key (c : List (String × ℚ)) (m : Except String ℚ) :
    ∀ p ∈ (growthPart c m).1, p.1 = "growth_rate" := by
  intro p hp
  unfold growthPart at hp
  split at hp
  · split at hp <;> simp at hp
    rw [hp]
  · simp at hp

/-- The efficiency block only contributes the key `efficiency_ratio`. -/
lemma effPart_key (c : List (String × ℚ)) :
    ∀ p ∈ (effPart c).1, p.1 = "efficiency_ratio" := by
  intro p hp
  unfold effPart at hp
  split at hp
  · split at hp <;> simp at hp
    rw [hp]
  · simp at hp

/-- Past validation, looking up any key other than the ten metric keys in
the result's data reads the final aggregate block. -/
lemma calcAll_data_agg (input : CalculationInput)
    (hv : validate_input_data input = .ok ()) (k : String)
    (hk : k ∉ (["mean", "weighted_mean", "std_dev", "median", "variance",
      "min_value", "max_value", "value_range", "growth_rate", "efficiency_ratio"] : List String)) :
    dict_get k (calculate_all_metrics input).data = dict_get k (aggPart input.indicators) := by
  simp only [List.mem_cons, not_or] at hk
  obtain ⟨k1, k2, k3, k4, k5, k6, k7, k8, k9, k10, -⟩ := hk
  unfold calculate_all_metrics
  rw [hv]
  simp only []
  refine dict_get_append _ _ _ ?_
  intro p hp
  simp only [List.mem_append] at hp
  rcases hp with ((((((h | h) | h) | h) | h) | h) | h) | h
  · rw [metricEntry_key _ _ p h]; exact fun e => k1 e.symm
  · rw [metricEntry_key _ _ p h]; exact fun e => k2 e.symm
  · rw [stdEntry_key _ p h]; exact fun e => k3 e.symm
  · rw [metricEntry_key _ _ p h]; exact fun e => k4 e.symm
  · rw [metricEntry_key _ _ p h]; exact fun e => k5 e.symm
  · rcases rangeEntry_key _ p h with h6 | h6 | h6 <;> rw [h6]
    exacts [fun e => k6 e.symm, fun e => k7 e.symm, fun e => k8 e.symm]
  · rw [growthPart_key _ _ p h]; exact fun e => k9 e.symm
  · rw [effPart_key _ p h]; exact fun e => k10 e.symm

/-- C6: past validation (which forces a non-empty sequence), the data
contains `sum` = Σ values and `count` = number of indicators, and whenever
that sum is non-zero it also contains `avg_contribution = 100 / count`,
a value independent of the individual indicator values. -/
theorem aggregates_in_data (input : CalculationInput)
    (hv : validate_input_data input = .ok ()) :
    dict_get "sum" (calculate_all_metrics input).data =
      some (.q (input.indicators.map (·.value)).sum) ∧
    dict_get "count" (calculate_all_metrics input).data =
      some (.q ((input.indicators.map (·.value)).length : ℚ)) ∧
    ((input.indicators.map (·.value)).sum ≠ 0 →
      dict_get "avg_contribution" (calculate_all_metrics input).data =
        some (.q (100 / ((input.indicators.map (·.value)).length : ℚ)))) := by
  have hne := validate_ok_nonempty hv
  refine ⟨?_, ?_, fun hs => ?_⟩
  · rw [calcAll_data_agg input hv "sum" (by decide)]
    unfold aggPart
    rw [if_neg hne]
    simp +decide [dict_get]
  · rw [calcAll_data_agg input hv "count" (by decide)]
    unfold aggPart
    rw [if_neg hne]
    simp +decide [dict_get]
  · rw [calcAll_data_agg input hv "avg_contribution" (by decide)]
    unfold aggPart
    rw [if_neg hne]
    simp +decide [dict_get, hs]

/-- Witness for C6 at a concrete valid two-indicator input. -/
theorem aggregates_in_data_witness :
    dict_get "sum"
        (calculate_all_metrics ⟨[⟨"a", 10, some 1, ""⟩, ⟨"b", 30, some 1, ""⟩], []⟩).data =
      some (.q (([⟨"a", 10, some 1, ""⟩, ⟨"b", 30, some 1, ""⟩] : List Indicator).map (·.value)).sum) ∧
    dict_get "count"
        (calculate_all_metrics ⟨[⟨"a", 10, some 1, ""⟩, ⟨"b", 30, some 1, ""⟩], []⟩).data =
      some (.q ((([⟨"a", 10, some 1, ""⟩, ⟨"b", 30, some 1, ""⟩] : List Indicator).map (·.value)).length : ℚ)) ∧
    ((([⟨"a", 10, some 1, ""⟩, ⟨"b", 30, some 1, ""⟩] : List Indicator).map (·.value)).sum ≠ 0 →
      dict_get "avg_contribution"
          (calculate_all_metrics ⟨[⟨"a", 10, some 1, ""⟩, ⟨"b", 30, some 1, ""⟩], []⟩).data =
        some (.q (100 / ((([⟨"a", 10, some 1, ""⟩, ⟨"b", 30, some 1, ""⟩] : List Indicator).map (·.value)).length : ℚ)))) :=
  aggregates_in_data ⟨[⟨"a", 10, some 1, ""⟩, ⟨"b", 30, some 1, ""⟩], []⟩
    (by simp +decide [validate_input_data, validate_indicator])

/-- Witness for C1 at a concrete succeeding input: a true `success` flag is
interchangeable with an empty error list. -/
theorem success_iff_no_errors_witness :
    (calculate_all_metrics ⟨[⟨"a", 5, some 1, ""⟩], []⟩).errors = [] :=
  (success_iff_no_errors ⟨[⟨"a", 5, some 1, ""⟩], []⟩).mp
    (by norm_num +decide [calculate_all_metrics, validate_input_data, validate_indicator,
      calculate_arithmetic_mean, calculate_weighted_mean, metricIssue,
      growthPart, effPart, dict_get])
